import Mathlib

/-!
Verification of the reactive device-state synchronizer of
`cosmic-applet-power-battery` (src/applets/cosmic-applet-power-battery/src/main.rs).

The embedding covers:
* the message handler `AppModel::update` (lines 196-237), as a pure function
  from the current cached-property view and state to the new state plus a list
  of side effects;
* the initial model built in `AppModel::init` (lines 178-181);
* the spawned device-resolution task in `init` (lines 186-191), as a function
  of the result of `display_device()` returning the messages sent and the
  errors reported;
* the spawned subscription/merge task in the `SetDevice` branch
  (lines 210-221), as a trace of its observable steps (subscribing, emitting a
  synthetic update, consuming one merged event and emitting one update), with
  the merged stream abstracted by the arrival-ordered list of underlying
  change notifications.

Floating point values (`f64`) are modelled as rationals, since the handler
only stores them and never computes with them; `Duration` is modelled as the
number of whole seconds, since the only constructor used is
`Duration::from_secs`; `zbus::Result<Option<T>>` is modelled as
`Except Unit (Option T)`.
-/

/-- Result of a cached property read of the device proxy: models
`zbus::Result<Option<T>>` (`Err`, `Ok(None)` = absent, `Ok(Some v)`). -/
abbrev ReadResult (α : Type) := Except Unit (Option α)

/-- The device proxy handle stored in the model is an invisible capability;
all observable behaviour goes through the cached reads, which are supplied
separately per update event. -/
abbrev DeviceHandle := Unit

/-- View of the device proxy cache at the instant an `UpdateProperties`
message is handled: the results of `cached_percentage()`,
`cached_icon_name()` and `cached_time_to_empty()` (main.rs lines 225-231). -/
structure CachedProps where
  percentage : ReadResult ℚ
  icon_name : ReadResult String
  time_to_empty : ReadResult Int

/-- `struct AppModel` (main.rs lines 23-31). `time_remaining` is a duration
in whole seconds. -/
structure AppModel where
  icon_name : String
  battery_percent : ℚ
  time_remaining : ℕ
  display_brightness : ℚ
  keyboard_brightness : ℚ
  device : Option DeviceHandle
deriving DecidableEq

/-- `enum AppMsg` (main.rs lines 33-38). -/
inductive AppMsg where
  | SetDisplayBrightness (value : ℚ)
  | SetKeyboardBrightness (value : ℚ)
  | SetDevice (device : DeviceHandle)
  | UpdateProperties
deriving DecidableEq

/-- Brightness targets of a control intent. -/
inductive BrightnessTarget where
  | display
  | keyboard
deriving DecidableEq

/-- Side effects the `update` handler can request. `setRemoteBrightness` is
the vocabulary for a call to a remote brightness-control service; the current
code never emits it (the brightness branches carry only an `XXX set
brightness` comment). `spawnSubscriptionTask` is the task spawned by the
`SetDevice` branch (main.rs line 210). -/
inductive Effect where
  | spawnSubscriptionTask (device : DeviceHandle)
  | setRemoteBrightness (target : BrightnessTarget) (value : ℚ)
deriving DecidableEq

/-- Rust integer cast `secs as u64` applied to an `i64`: wraps modulo 2^64.
Used in `Duration::from_secs(secs as u64)` (main.rs line 232). -/
def i64AsU64 (s : Int) : ℕ := (s % (2 ^ 64 : Int)).toNat

/-- The `AppMsg::UpdateProperties` branch of `AppModel::update`
(main.rs lines 223-235). -/
def updateProps (env : CachedProps) (m : AppModel) : AppModel :=
  match m.device with
  | none => m
  | some _ =>
    let m1 := match env.percentage with
      | .ok (some percentage) => { m with battery_percent := percentage }
      | _ => m
    let m2 := match env.icon_name with
      | .ok (some icon_name) => { m1 with icon_name := icon_name }
      | _ => m1
    match env.time_to_empty with
      | .ok (some secs) => { m2 with time_remaining := i64AsU64 secs }
      | _ => m2

/-- `AppModel::update` (main.rs lines 196-237), with the device proxy cache
view `env` passed explicitly and the spawned task recorded as an effect. -/
def update (env : CachedProps) (m : AppModel) (msg : AppMsg) :
    AppModel × List Effect :=
  match msg with
  | .SetDisplayBrightness value =>
      ({ m with display_brightness := value }, [])
  | .SetKeyboardBrightness value =>
      ({ m with keyboard_brightness := value }, [])
  | .SetDevice device =>
      ({ m with device := some device }, [.spawnSubscriptionTask device])
  | .UpdateProperties => (updateProps env m, [])

/-- The model constructed in `AppModel::init` (main.rs lines 178-181):
`icon_name: "battery-symbolic"`, every other field from `Default`
(empty string, `0.0`, `Duration::ZERO`, `None`). -/
def initModel : AppModel :=
  { icon_name := "battery-symbolic"
    battery_percent := 0
    time_remaining := 0
    display_brightness := 0
    keyboard_brightness := 0
    device := none }

/-- The task spawned in `AppModel::init` (main.rs lines 186-191): on success
of `display_device()` it sends one `SetDevice` message; on failure it prints
one error line and sends nothing. Returns (messages sent, errors reported). -/
def initTask (r : Except String DeviceHandle) : List AppMsg × List String :=
  match r with
  | .ok device => ([AppMsg.SetDevice device], [])
  | .error err => ([], ["Failed to open UPower display device: " ++ err])

/-- Running a sequence of messages through `update`, each with the device
cache view current when that message is handled. Effects are discarded;
only the state evolution is tracked. -/
def run (steps : List (CachedProps × AppMsg)) (m : AppModel) : AppModel :=
  steps.foldl (fun s step => (update step.1 s step.2).1) m

/-- Running a sequence of `UpdateProperties` events, one per cache view. -/
def runUpdates (envs : List CachedProps) (m : AppModel) : AppModel :=
  envs.foldl (fun s env => (update env s .UpdateProperties).1) m

/-- Specification-side effect of one read outcome on a best-effort field:
a success-with-value outcome overwrites, a failure or absence keeps the
previous value. -/
def applyRead {α : Type} (cur : α) (r : ReadResult α) : α :=
  match r with
  | .ok (some x) => x
  | _ => cur

/-- Specification-side characterization of a best-effort field: the last
success-with-value outcome wins; failures and absences leave the previous
value. -/
def lastGood {α : Type} (reads : List (ReadResult α)) (v : α) : α :=
  reads.foldl applyRead v

/-- The read outcome for `time_to_empty`, with the stored value already
converted by `Duration::from_secs(secs as u64)`. -/
def timeOutcome (env : CachedProps) : ReadResult ℕ :=
  match env.time_to_empty with
  | .ok (some s) => .ok (some (i64AsU64 s))
  | .ok none => .ok none
  | .error u => .error u

/-- The three observed properties (main.rs lines 212-214). -/
inductive PropKind where
  | iconName
  | percentage
  | timeToEmpty
deriving DecidableEq

/-- Observable steps of the task spawned by the `SetDevice` branch
(main.rs lines 210-221): awaiting one `receive_*_changed` subscription,
sending one `UpdateProperties` message, consuming one event of the merged
stream. -/
inductive TaskEvent where
  | subscribe (p : PropKind)
  | sendUpdate
  | consume (p : PropKind)
deriving DecidableEq

/-- The order in which the three `receive_*_changed().await` subscription
calls are evaluated by `stream_select!` (main.rs lines 212-214). -/
def subscribeOrder : List PropKind := [.iconName, .percentage, .timeToEmpty]

/-- The `while let Some(()) = stream.next().await` loop (main.rs lines
218-220): each merged event consumed is followed by exactly one
`sender.input(AppMsg::UpdateProperties)`. The merged stream produced by
`stream_select!` yields one item per underlying change notification, in
arrival order, so it is abstracted by the arrival-ordered list of source
tags. -/
def consumeLoop : List PropKind → List TaskEvent
  | [] => []
  | p :: rest => TaskEvent.consume p :: TaskEvent.sendUpdate :: consumeLoop rest

/-- Trace of the subscription task, parameterized by the order `ord` in which
the three subscriptions are established and by the arrival-ordered list of
underlying change notifications: subscribe to all sources, send the initial
synthetic update (main.rs line 217), then run the consume loop. -/
def mergedTaskOrd (ord : List PropKind) (arrivals : List PropKind) :
    List TaskEvent :=
  ord.map TaskEvent.subscribe ++ (TaskEvent.sendUpdate :: consumeLoop arrivals)

/-- Trace of the subscription task as written (subscriptions in source
order). -/
def mergedTask (arrivals : List PropKind) : List TaskEvent :=
  mergedTaskOrd subscribeOrder arrivals

/-- Number of `UpdateProperties` messages sent in a trace. -/
def countSend : List TaskEvent → ℕ
  | [] => 0
  | .sendUpdate :: rest => countSend rest + 1
  | _ :: rest => countSend rest

/-- Prefix of a trace strictly before the first consumption of a merged
event. -/
def preConsume : List TaskEvent → List TaskEvent
  | [] => []
  | .consume _ :: _ => []
  | e :: rest => e :: preConsume rest

/-- The source tag of a consumption step, if any. -/
def consumedProp : TaskEvent → Option PropKind
  | .consume p => some p
  | _ => none

/-- Whether a trace step is a subscription call. -/
def isSubscribe : TaskEvent → Bool
  | .subscribe _ => true
  | _ => false

/-- Leading run of subscription steps of a trace. -/
def leadingSubs : List TaskEvent → List TaskEvent
  | TaskEvent.subscribe p :: rest => TaskEvent.subscribe p :: leadingSubs rest
  | _ => []

/-- Trace with its leading subscription steps removed. -/
def afterSubs : List TaskEvent → List TaskEvent
  | TaskEvent.subscribe _ :: rest => afterSubs rest
  | l => l

/-- Trace with all subscription steps removed: the behaviour of the merge
as seen by the updater. -/
def dropSubs : List TaskEvent → List TaskEvent
  | [] => []
  | TaskEvent.subscribe _ :: rest => dropSubs rest
  | e :: rest => e :: dropSubs rest

/-- A percentage read outcome that, when it carries a value, carries one in
[0, 100] (the range the power service documents for `percentage`). -/
def percentInRange : ReadResult ℚ → Prop
  | .ok (some p) => 0 ≤ p ∧ p ≤ 100
  | _ => True

/- ### Helper lemmas -/

/-- With no device resolved, `UpdateProperties` leaves the state untouched. -/
theorem updateProps_none (env : CachedProps) (m : AppModel)
    (hdev : m.device = none) : updateProps env m = m := by
  unfold updateProps
  rw [hdev]

/-- With a device resolved, each snapshot field of the new state is the read
value on success-with-value and the old value otherwise, and the remaining
fields are untouched. -/
theorem updateProps_some (env : CachedProps) (m : AppModel) (d : DeviceHandle)
    (hdev : m.device = some d) :
    updateProps env m =
      { m with
        battery_percent := applyRead m.battery_percent env.percentage
        icon_name := applyRead m.icon_name env.icon_name
        time_remaining := applyRead m.time_remaining (timeOutcome env) } := by
  obtain ⟨p, i, t⟩ := env
  obtain ⟨mi, mb, mt, mdb, mkb, mdev⟩ := m
  have hd : mdev = some d := hdev
  subst hd
  rcases p with u | _ | pv <;> rcases i with u2 | _ | iv <;>
    rcases t with u3 | _ | tv <;> rfl

/-- No step of the consume loop is a subscription call. -/
theorem consumeLoop_no_subscribe (arrivals : List PropKind) :
    ∀ e ∈ consumeLoop arrivals, isSubscribe e = false := by
  induction arrivals with
  | nil => intro e he; cases he
  | cons p rest ih =>
    intro e he
    rcases List.mem_cons.mp he with h | he2
    · subst h; rfl
    · rcases List.mem_cons.mp he2 with h | he3
      · subst h; rfl
      · exact ih e he3

/-- The consume loop sends exactly one update per consumed event. -/
theorem countSend_consumeLoop (arrivals : List PropKind) :
    countSend (consumeLoop arrivals) = arrivals.length := by
  induction arrivals with
  | nil => rfl
  | cons p rest ih => simp [consumeLoop, countSend, ih]

/-- The events consumed by the loop are the arrivals, in order. -/
theorem filterMap_consumeLoop (arrivals : List PropKind) :
    (consumeLoop arrivals).filterMap consumedProp = arrivals := by
  induction arrivals with
  | nil => rfl
  | cons p rest ih =>
    simp [consumeLoop, List.filterMap_cons, consumedProp, ih]

/-- The leading subscription steps of a task trace are its subscription
phase. -/
theorem leadingSubs_subs (ord : List PropKind) (l : List TaskEvent) :
    leadingSubs (ord.map TaskEvent.subscribe ++ (TaskEvent.sendUpdate :: l))
      = ord.map TaskEvent.subscribe := by
  induction ord with
  | nil => rfl
  | cons p rest ih => simp [leadingSubs, ih]

/-- Past the subscription phase, the trace is the synthetic update followed
by the consume loop. -/
theorem afterSubs_subs (ord : List PropKind) (l : List TaskEvent) :
    afterSubs (ord.map TaskEvent.subscribe ++ (TaskEvent.sendUpdate :: l))
      = TaskEvent.sendUpdate :: l := by
  induction ord with
  | nil => rfl
  | cons p rest ih => simpa [afterSubs] using ih

/-- Removing the subscription steps removes exactly the subscription
phase. -/
theorem dropSubs_map_subscribe (ord : List PropKind) (l : List TaskEvent) :
    dropSubs (ord.map TaskEvent.subscribe ++ l) = dropSubs l := by
  induction ord with
  | nil => rfl
  | cons p rest ih => simpa [dropSubs] using ih

/-- C4: after the device is resolved and the merged stream is set up,
exactly one synthetic update event (one `sender.input(UpdateProperties)`,
hence one recomputation attempt) occurs before any merged change
notification is consumed, and with zero arrivals the task sends exactly one
update in total. -/
theorem initial_synthetic_update (arrivals : List PropKind) :
    countSend (preConsume (mergedTask arrivals)) = 1 ∧
    countSend (mergedTask []) = 1 := by
  cases arrivals with
  | nil => exact ⟨rfl, rfl⟩
  | cons p rest => exact ⟨rfl, rfl⟩

/-- C5: the updater processes exactly one recomputation attempt per
underlying change notification, in arrival order: the consumed events of the
task trace are the arrivals themselves (no coalescing, no reordering), and
the consume loop sends exactly one update per arrival. -/
theorem merge_order_preserved (arrivals : List PropKind) :
    (mergedTask arrivals).filterMap consumedProp = arrivals ∧
    countSend (consumeLoop arrivals) = arrivals.length := by
  constructor
  · show (mergedTaskOrd subscribeOrder arrivals).filterMap consumedProp
        = arrivals
    simp [mergedTaskOrd, subscribeOrder, List.filterMap_cons, consumedProp,
      filterMap_consumeLoop arrivals]
  · exact countSend_consumeLoop arrivals

/-- C7: for any order in which the three subscriptions are established, the
trace starts with all three subscription calls (its leading subscription run
has length 3), no subscription occurs after that point (so all three are
established before any merged event is consumed), and the part of the trace
seen by the updater is the same as for the source order. -/
theorem subscriptions_before_consumption (ord arrivals : List PropKind)
    (hord : ord.Perm subscribeOrder) :
    (leadingSubs (mergedTaskOrd ord arrivals)).length = 3 ∧
    (∀ e ∈ afterSubs (mergedTaskOrd ord arrivals), isSubscribe e = false) ∧
    dropSubs (mergedTaskOrd ord arrivals) = dropSubs (mergedTask arrivals) := by
  refine ⟨?_, ?_, ?_⟩
  · rw [mergedTaskOrd, leadingSubs_subs]
    have h3 := hord.length_eq
    simp only [subscribeOrder, List.length_cons, List.length_nil] at h3
    simpa using h3
  · rw [mergedTaskOrd, afterSubs_subs]
    intro e he
    rcases List.mem_cons.mp he with h | he2
    · subst h; rfl
    · exact consumeLoop_no_subscribe arrivals e he2
  · rw [mergedTask, mergedTaskOrd, mergedTaskOrd, dropSubs_map_subscribe,
      dropSubs_map_subscribe]

/-- Witness for C7 at a concrete subscription order and arrival list. -/
theorem subscriptions_before_consumption_witness :
    (leadingSubs (mergedTaskOrd [.percentage, .timeToEmpty, .iconName]
      [.iconName])).length = 3 ∧
    (∀ e ∈ afterSubs (mergedTaskOrd [.percentage, .timeToEmpty, .iconName]
      [.iconName]), isSubscribe e = false) ∧
    dropSubs (mergedTaskOrd [.percentage, .timeToEmpty, .iconName]
      [.iconName]) = dropSubs (mergedTask [.iconName]) :=
  subscriptions_before_consumption [.percentage, .timeToEmpty, .iconName]
    [.iconName] (by decide)

/-- Unfolding `lastGood` one outcome at a time. -/
theorem lastGood_cons {α : Type} (r : ReadResult α) (l : List (ReadResult α))
    (v : α) : lastGood (r :: l) v = lastGood l (applyRead v r) := rfl

/-- C1: over any sequence of update events with arbitrary per-property read
outcomes, each snapshot field ends at the last success-with-value outcome
for its own property (so it is overwritten exactly on such outcomes and kept
otherwise, independently per field), and the non-snapshot fields are never
touched by update events. -/
theorem per_field_best_effort (envs : List CachedProps) (m : AppModel)
    (hdev : m.device.isSome) :
    (runUpdates envs m).battery_percent
        = lastGood (envs.map (fun e => e.percentage)) m.battery_percent ∧
    (runUpdates envs m).icon_name
        = lastGood (envs.map (fun e => e.icon_name)) m.icon_name ∧
    (runUpdates envs m).time_remaining
        = lastGood (envs.map timeOutcome) m.time_remaining ∧
    (runUpdates envs m).display_brightness = m.display_brightness ∧
    (runUpdates envs m).keyboard_brightness = m.keyboard_brightness ∧
    (runUpdates envs m).device = m.device := by
  induction envs generalizing m with
  | nil => exact ⟨rfl, rfl, rfl, rfl, rfl, rfl⟩
  | cons env rest ih =>
    obtain ⟨d, hd⟩ := Option.isSome_iff_exists.mp hdev
    have hstep := updateProps_some env m d hd
    have hrun : runUpdates (env :: rest) m
        = runUpdates rest (updateProps env m) := rfl
    have h1dev : (updateProps env m).device.isSome := by
      rw [hstep]; exact hdev
    obtain ⟨ihb, ihi, iht, ihd, ihk, ihdev⟩ := ih (updateProps env m) h1dev
    refine ⟨?_, ?_, ?_, ?_, ?_, ?_⟩
    · rw [hrun, ihb, hstep, List.map_cons, lastGood_cons]
    · rw [hrun, ihi, hstep, List.map_cons, lastGood_cons]
    · rw [hrun, iht, hstep, List.map_cons, lastGood_cons]
    · rw [hrun, ihd, hstep]
    · rw [hrun, ihk, hstep]
    · rw [hrun, ihdev, hstep, hd]

/-- Concrete cache view: percentage readable as 42, icon read fails,
time-to-empty absent. -/
def envA : CachedProps :=
  { percentage := .ok (some 42), icon_name := .error (), time_to_empty := .ok none }

/-- Concrete cache view: percentage absent, icon and time-to-empty
readable. -/
def envB : CachedProps :=
  { percentage := .ok none, icon_name := .ok (some "battery-low-symbolic"),
    time_to_empty := .ok (some 90) }

/-- Concrete cache view with an out-of-range percentage. -/
def envPct150 : CachedProps :=
  { percentage := .ok (some 150), icon_name := .ok none, time_to_empty := .ok none }

/-- Concrete cache view with an in-range percentage. -/
def envPct42 : CachedProps :=
  { percentage := .ok (some 42), icon_name := .ok none, time_to_empty := .ok none }

/-- Concrete cache view with a negative time-to-empty. -/
def envNeg : CachedProps :=
  { percentage := .ok none, icon_name := .ok none, time_to_empty := .ok (some (-1)) }

/-- The initial model after the display device has been resolved. -/
def mDev : AppModel := { initModel with device := some () }

/-- Witness for C1 at a concrete two-event sequence. -/
theorem per_field_best_effort_witness :
    (runUpdates [envA, envB] mDev).battery_percent
        = lastGood ([envA, envB].map (fun e => e.percentage))
            mDev.battery_percent ∧
    (runUpdates [envA, envB] mDev).icon_name
        = lastGood ([envA, envB].map (fun e => e.icon_name)) mDev.icon_name ∧
    (runUpdates [envA, envB] mDev).time_remaining
        = lastGood ([envA, envB].map timeOutcome) mDev.time_remaining ∧
    (runUpdates [envA, envB] mDev).display_brightness
        = mDev.display_brightness ∧
    (runUpdates [envA, envB] mDev).keyboard_brightness
        = mDev.keyboard_brightness ∧
    (runUpdates [envA, envB] mDev).device = mDev.device :=
  per_field_best_effort [envA, envB] mDev rfl

/-- C2 counterexample: a reachable state (resolve the device, then one update
event in which the device reports `percentage = 150.0`) whose
`battery_percent` is not in [0, 100]: the updater stores device-reported
percentages without clamping. -/
theorem battery_percent_range_counterexample :
    ¬ (0 ≤ (run [(envPct150, .SetDevice ()), (envPct150, .UpdateProperties)]
            initModel).battery_percent ∧
       (run [(envPct150, .SetDevice ()), (envPct150, .UpdateProperties)]
            initModel).battery_percent ≤ 100) := by
  intro h
  have hb : (run [(envPct150, .SetDevice ()), (envPct150, .UpdateProperties)]
      initModel).battery_percent = 150 := rfl
  rw [hb] at h
  exact absurd h.2 (by norm_num)

/-- An invariant the device-reported percentage outcomes satisfy across a
run. -/
def percentStepsInRange (steps : List (CachedProps × AppMsg)) : Prop :=
  ∀ st ∈ steps, percentInRange st.1.percentage

/-- The battery-percentage bound is preserved by a run whose delivered
percentage readings are in range. -/
theorem run_battery_bound (steps : List (CachedProps × AppMsg))
    (m : AppModel)
    (hm : 0 ≤ m.battery_percent ∧ m.battery_percent ≤ 100)
    (hp : percentStepsInRange steps) :
    0 ≤ (run steps m).battery_percent ∧
      (run steps m).battery_percent ≤ 100 := by
  induction steps generalizing m with
  | nil => exact hm
  | cons st rest ih =>
    have hrun : run (st :: rest) m = run rest (update st.1 m st.2).1 := rfl
    rw [hrun]
    refine ih (update st.1 m st.2).1 ?_ ?_
    · rcases st with ⟨env, msg⟩
      cases msg with
      | SetDisplayBrightness v => exact hm
      | SetKeyboardBrightness v => exact hm
      | SetDevice d => exact hm
      | UpdateProperties =>
        show 0 ≤ (updateProps env m).battery_percent ∧
          (updateProps env m).battery_percent ≤ 100
        cases hdev : m.device with
        | none => rw [updateProps_none env m hdev]; exact hm
        | some d =>
          rw [updateProps_some env m d hdev]
          have hr := hp (env, AppMsg.UpdateProperties)
            (List.mem_cons_self _ _)
          rcases hq : env.percentage with u | _ | p
          · exact hm
          · exact hm
          · rw [hq] at hr
            exact hr
    · intro st2 h2
      exact hp st2 (List.mem_cons_of_mem _ h2)

/-- C2 amended: for every reachable state, `time_remaining` is a
non-negative duration unconditionally, and `battery_percent` lies in
[0, 100] provided every percentage reading delivered by the device lies in
[0, 100] (the code stores readings unclamped, so the bound holds exactly
when the device respects its documented range). -/
theorem battery_percent_range_amended (steps : List (CachedProps × AppMsg))
    (hp : percentStepsInRange steps) :
    (0 ≤ (run steps initModel).battery_percent ∧
      (run steps initModel).battery_percent ≤ 100) ∧
    0 ≤ (run steps initModel).time_remaining :=
  ⟨run_battery_bound steps initModel (by norm_num [initModel]) hp,
   Nat.zero_le _⟩

/-- Witness for the amended C2 at a concrete run. -/
theorem battery_percent_range_amended_witness :
    (0 ≤ (run [(envPct42, .SetDevice ()), (envPct42, .UpdateProperties)]
        initModel).battery_percent ∧
      (run [(envPct42, .SetDevice ()), (envPct42, .UpdateProperties)]
        initModel).battery_percent ≤ 100) ∧
    0 ≤ (run [(envPct42, .SetDevice ()), (envPct42, .UpdateProperties)]
        initModel).time_remaining :=
  battery_percent_range_amended
    [(envPct42, .SetDevice ()), (envPct42, .UpdateProperties)]
    (by
      intro st hst
      rcases List.mem_cons.mp hst with h | h2
      · subst h; show percentInRange (Except.ok (some 42)); norm_num [percentInRange]
      · rcases List.mem_cons.mp h2 with h | h3
        · subst h; show percentInRange (Except.ok (some 42)); norm_num [percentInRange]
        · cases h3)

/-- C3: on a successful read of `time_to_empty = s` (an `i64`), the stored
duration is `s mod 2^64` seconds — exactly `s` seconds when `s` is
non-negative, and `s + 2^64` seconds (not `s`) when `s` is negative —
because the conversion is `Duration::from_secs(secs as u64)`. -/
theorem time_to_empty_conversion (env : CachedProps) (m : AppModel)
    (d : DeviceHandle) (s : Int)
    (hdev : m.device = some d) (hs : env.time_to_empty = .ok (some s))
    (hlo : -(2 ^ 63) ≤ s) (hhi : s < 2 ^ 63) :
    ((update env m .UpdateProperties).1).time_remaining
        = (s % (2 ^ 64 : Int)).toNat ∧
    (0 ≤ s →
      (((update env m .UpdateProperties).1).time_remaining : Int) = s) ∧
    (s < 0 →
      (((update env m .UpdateProperties).1).time_remaining : Int)
        = s + 2 ^ 64) := by
  have h1 : ((update env m .UpdateProperties).1).time_remaining
      = i64AsU64 s := by
    show (updateProps env m).time_remaining = i64AsU64 s
    rw [updateProps_some env m d hdev]
    show applyRead m.time_remaining (timeOutcome env) = i64AsU64 s
    simp [timeOutcome, hs, applyRead]
  rw [h1]
  unfold i64AsU64
  have h64 : (2 : Int) ^ 64 = 18446744073709551616 := by norm_num
  have h63 : (2 : Int) ^ 63 = 9223372036854775808 := by norm_num
  rw [h64] at *
  rw [h63] at hlo hhi
  refine ⟨rfl, ?_, ?_⟩
  · intro hpos
    omega
  · intro hneg
    omega

/-- Witness for C3 at `time_to_empty = -1`. -/
theorem time_to_empty_conversion_witness :
    ((update envNeg mDev .UpdateProperties).1).time_remaining
        = ((-1 : Int) % (2 ^ 64 : Int)).toNat ∧
    (0 ≤ (-1 : Int) →
      (((update envNeg mDev .UpdateProperties).1).time_remaining : Int)
        = -1) ∧
    ((-1 : Int) < 0 →
      (((update envNeg mDev .UpdateProperties).1).time_remaining : Int)
        = -1 + 2 ^ 64) :=
  time_to_empty_conversion envNeg mDev () (-1) rfl rfl
    (by norm_num) (by norm_num)

/-- C6: when `display_device()` fails, the resolution task sends no message
and reports the error exactly once, and the state reached by any sequence of
subsequent recomputation attempts from the initial model is the initial
model itself (no update event carrying a device ever arrives, and with no
device resolved every `UpdateProperties` is a no-op). -/
theorem connect_failure_stays_default (err : String)
    (updates : List CachedProps) :
    (initTask (.error err)).1 = [] ∧
    (initTask (.error err)).2
      = ["Failed to open UPower display device: " ++ err] ∧
    run (updates.map (fun e => (e, AppMsg.UpdateProperties))) initModel
      = initModel := by
  refine ⟨rfl, rfl, ?_⟩
  have key : ∀ (l : List CachedProps) (m : AppModel), m.device = none →
      run (l.map (fun e => (e, AppMsg.UpdateProperties))) m = m := by
    intro l
    induction l with
    | nil => intro m _; rfl
    | cons e rest ih =>
      intro m hm
      have h1 : (update e m .UpdateProperties).1 = m :=
        updateProps_none e m hm
      show run (rest.map (fun e => (e, AppMsg.UpdateProperties)))
        (update e m .UpdateProperties).1 = m
      rw [h1]
      exact ih m hm
  exact key updates initModel rfl

/-- C8: a display-brightness (resp. keyboard-brightness) intent sets only
the corresponding locally held field, leaves every other field unchanged,
and requests no effect at all — in particular no call to a remote
brightness-control service. -/
theorem brightness_intent_local_only (env : CachedProps) (m : AppModel)
    (v : ℚ) :
    ((update env m (.SetDisplayBrightness v)).1.display_brightness = v ∧
     (update env m (.SetDisplayBrightness v)).1.icon_name = m.icon_name ∧
     (update env m (.SetDisplayBrightness v)).1.battery_percent
        = m.battery_percent ∧
     (update env m (.SetDisplayBrightness v)).1.time_remaining
        = m.time_remaining ∧
     (update env m (.SetDisplayBrightness v)).1.keyboard_brightness
        = m.keyboard_brightness ∧
     (update env m (.SetDisplayBrightness v)).1.device = m.device ∧
     (update env m (.SetDisplayBrightness v)).2 = []) ∧
    ((update env m (.SetKeyboardBrightness v)).1.keyboard_brightness = v ∧
     (update env m (.SetKeyboardBrightness v)).1.icon_name = m.icon_name ∧
     (update env m (.SetKeyboardBrightness v)).1.battery_percent
        = m.battery_percent ∧
     (update env m (.SetKeyboardBrightness v)).1.time_remaining
        = m.time_remaining ∧
     (update env m (.SetKeyboardBrightness v)).1.display_brightness
        = m.display_brightness ∧
     (update env m (.SetKeyboardBrightness v)).1.device = m.device ∧
     (update env m (.SetKeyboardBrightness v)).2 = []) :=
  ⟨⟨rfl, rfl, rfl, rfl, rfl, rfl, rfl⟩,
   ⟨rfl, rfl, rfl, rfl, rfl, rfl, rfl⟩⟩

/-- C9: before a device has been resolved, `UpdateProperties` is a complete
no-op: the state is returned unchanged and no effect is requested. -/
theorem no_device_update_noop (env : CachedProps) (m : AppModel)
    (hdev : m.device = none) :
    update env m .UpdateProperties = (m, []) := by
  show (updateProps env m, []) = (m, [])
  rw [updateProps_none env m hdev]

/-- Witness for C9 at the initial model. -/
theorem no_device_update_noop_witness :
    update envA initModel .UpdateProperties = (initModel, []) :=
  no_device_update_noop envA initModel rfl

/-- C10: the concrete default state produced at initialization. -/
theorem default_state_values :
    initModel.icon_name = "battery-symbolic" ∧
    initModel.battery_percent = 0 ∧
    initModel.time_remaining = 0 ∧
    initModel.display_brightness = 0 ∧
    initModel.keyboard_brightness = 0 ∧
    initModel.device = none :=
  ⟨rfl, rfl, rfl, rfl, rfl, rfl⟩
